import Mathlib

/-!
Verification of the quiz-record slice of the `solidbook` repository.

The slice under `src/components/Quiz/quizzes/` consists of two statically
declared quiz records, `srpPatterns3` and `lspIdeal1`, both of type `IQuiz`.
Each record carries a `name`, a renderable `question`, an ordered list of
`variants` (each with renderable `text` and optional `description`), and
`meta.correctAnswers`, a list of zero-based indices into `variants`.

The registry operations (`define`, `lookup`) and the selection evaluator
(`evaluate`) are described by the specification but their code is not part
of the inspected slice; they are modelled here from the specification's
words and marked as such in their doc comments.
-/

/-- Renderable rich content: either a plain text run (a string literal in
the source) or an embedded MDX component such as `<Question />`,
identified by its component name. -/
inductive Content where
  | text : String → Content
  | component : String → Content
deriving DecidableEq, Repr

/-- One selectable option of a quiz: its displayed `text` and an optional
`description` shown as rationale (source: the object literals inside the
`variants` arrays). -/
structure VariantRecord where
  text : Content
  description : Option Content := none
deriving DecidableEq, Repr

/-- The `meta` object of an `IQuiz`: the list of zero-based indices of the
correct variants.  TypeScript numbers are modelled as integers. -/
structure QuizMeta where
  correctAnswers : List Int
deriving DecidableEq, Repr

/-- The `IQuiz` record shape from `src/components/Quiz/quizzes/IQuiz`:
a named quiz with a renderable question, an ordered variant list and the
correct-answer index list. -/
structure IQuiz where
  name : String
  question : Content
  variants : List VariantRecord
  meta : QuizMeta
deriving DecidableEq, Repr

/-- The record declared in `src/components/Quiz/quizzes/srp-patterns-3/index.tsx`. -/
def srpPatterns3 : IQuiz :=
  { name := "srp-patterns-3"
  , question := Content.component "Question"
  , variants :=
      [ { text := Content.text "1 класс" }
      , { text := Content.text "2 класса" }
      , { text := Content.text "3 класса"
        , description := some (Content.component "Description") } ]
  , meta := { correctAnswers := [2] } }

/-- The record declared in `src/components/Quiz/quizzes/lsp-ideal-1/index.tsx`. -/
def lspIdeal1 : IQuiz :=
  { name := "lsp-ideal-1"
  , question := Content.component "Question"
  , variants :=
      [ { text := Content.text "Содержит и описывает в себе общую для обоих классов функциональность" }
      , { text := Content.text "Предотвращает противоречие в поведении базовой сущности и её потомков" }
      , { text := Content.component "Variant3" }
      , { text := Content.text "Позволяет композировать свойства без прямого наследования" } ]
  , meta := { correctAnswers := [0, 1, 2, 3] } }

/-- The registered records of the inspected slice, in registration order. -/
def registeredQuizzes : List IQuiz := [srpPatterns3, lspIdeal1]

/-- Boolean test that every element of `xs` occurs in `ys`. -/
def listSubset (xs ys : List Int) : Bool :=
  xs.all (fun i => ys.contains i)

/-- Modelled from the spec: `evaluate(record, selectedIndices)` is missing
from the slice.  Per the spec it is a pure function that "returns whether
the selection set is exactly equal to the correct set (order-independent,
set-equality semantics)": mutual containment of the selection and of
`record.meta.correctAnswers`. -/
def evaluate (record : IQuiz) (selectedIndices : List Int) : Bool :=
  listSubset selectedIndices record.meta.correctAnswers &&
    listSubset record.meta.correctAnswers selectedIndices

/-- Modelled from the spec: the error taxonomy of section 7 of the spec
(`SchemaViolation`, `DuplicateName`, `NotFound`), whose defining code is
not part of the slice. -/
inductive RegistryError where
  | SchemaViolation
  | DuplicateName
  | NotFound
deriving DecidableEq, Repr

/-- Modelled from the spec: the structural invariants `define` validates —
non-empty name, non-empty variants, in-bounds correct-answer indices. -/
def validRecord (q : IQuiz) : Bool :=
  q.name != "" && !q.variants.isEmpty &&
    q.meta.correctAnswers.all (fun i => 0 ≤ i && i < (q.variants.length : Int))

/-- Modelled from the spec: `lookup(name)` is missing from the slice.  Per
the spec it "returns the registered record for an exact name match" and
"fails with `NotFound` if no record is registered under that name".  The
registry is the list of records in registration order. -/
def lookupQuiz (reg : List IQuiz) (name : String) : Except RegistryError IQuiz :=
  match reg.find? (fun q => q.name == name) with
  | some q => Except.ok q
  | none => Except.error RegistryError.NotFound

/-- Modelled from the spec: `define(record)` is missing from the slice.
Per the spec it fails with `DuplicateName` when the name is already
registered (rejecting the second registration, the recommended policy),
fails with `SchemaViolation` when a structural invariant is broken, and
otherwise appends the record to the registry. -/
def defineQuiz (reg : List IQuiz) (q : IQuiz) : Except RegistryError (List IQuiz) :=
  if (reg.find? (fun r => r.name == q.name)).isSome then
    Except.error RegistryError.DuplicateName
  else if validRecord q then
    Except.ok (reg ++ [q])
  else
    Except.error RegistryError.SchemaViolation

lemma listSubset_iff (xs ys : List Int) :
    listSubset xs ys = true ↔ ∀ i ∈ xs, i ∈ ys := by
  simp [listSubset, List.all_eq_true, List.contains, List.elem_iff]

lemma evaluate_eq_true_iff (record : IQuiz) (sel : List Int) :
    evaluate record sel = true ↔
      sel.toFinset = record.meta.correctAnswers.toFinset := by
  rw [Finset.ext_iff]
  simp only [evaluate, Bool.and_eq_true, listSubset_iff, List.mem_toFinset]
  constructor
  · rintro ⟨h₁, h₂⟩ a
    exact ⟨fun ha => h₁ a ha, fun ha => h₂ a ha⟩
  · intro h
    exact ⟨fun a ha => (h a).1 ha, fun a ha => (h a).2 ha⟩

/-- C1: `evaluate record sel` is true exactly when `sel` and
`record.meta.correctAnswers` are equal as sets, and the result depends
only on the set denoted by the selection list — not on its order or on
duplicate entries. -/
theorem evaluate_set_equality (record : IQuiz) (sel sel' : List Int) :
    (evaluate record sel = true ↔
        sel.toFinset = record.meta.correctAnswers.toFinset) ∧
      (sel.toFinset = sel'.toFinset → evaluate record sel = evaluate record sel') := by
  refine ⟨evaluate_eq_true_iff record sel, fun h => ?_⟩
  by_cases hb : evaluate record sel' = true
  · rw [hb, evaluate_eq_true_iff, h, ← evaluate_eq_true_iff record sel', hb]
  · have hs : ¬ evaluate record sel = true := by
      rw [evaluate_eq_true_iff, h, ← evaluate_eq_true_iff record sel']
      exact hb
    rw [Bool.not_eq_true] at hb hs
    rw [hb, hs]

/-- Witness for C1 at concrete inputs: the reordered, duplicated selection
`[2, 2]` evaluates on `srpPatterns3` the same as `[2]`, and evaluates to
true since it denotes the correct set `{2}`. -/
theorem evaluate_set_equality_witness :
    (evaluate srpPatterns3 [2, 2] = true ↔
        ([2, 2] : List Int).toFinset = srpPatterns3.meta.correctAnswers.toFinset) ∧
      evaluate srpPatterns3 [2, 2] = evaluate srpPatterns3 [2] :=
  ⟨(evaluate_set_equality srpPatterns3 [2, 2] [2]).1,
    (evaluate_set_equality srpPatterns3 [2, 2] [2]).2 (by decide)⟩

/-- C2: for every registered record, every index in `meta.correctAnswers`
is non-negative and strictly below the number of variants; in particular
for `srpPatterns3` (3 variants, correct `[2]`) and `lspIdeal1` (4 variants,
correct `[0,1,2,3]`). -/
theorem correctAnswers_in_bounds :
    (∀ q ∈ registeredQuizzes, ∀ i ∈ q.meta.correctAnswers,
        0 ≤ i ∧ i < (q.variants.length : Int)) ∧
      srpPatterns3.variants.length = 3 ∧
      lspIdeal1.variants.length = 4 := by
  refine ⟨?_, rfl, rfl⟩
  decide

/-- C3: every registered record has at least one variant. -/
theorem variants_nonempty :
    ∀ q ∈ registeredQuizzes, 1 ≤ q.variants.length := by
  decide

/-- Witness for C3 at a concrete record: `srpPatterns3` is registered and
has at least one variant. -/
theorem variants_nonempty_witness : 1 ≤ srpPatterns3.variants.length :=
  variants_nonempty srpPatterns3 (by decide)

/-- C4: the record named `"srp-patterns-3"` has the three variant texts
`"1 класс"`, `"2 класса"`, `"3 класса"`, its correct-answer set is `{2}`,
and `evaluate` on it accepts `{2}` and rejects `{0}` and `{0, 2}`. -/
theorem srpPatterns3_scenario :
    srpPatterns3.name = "srp-patterns-3" ∧
      srpPatterns3.variants.map (fun v => v.text) =
        [Content.text "1 класс", Content.text "2 класса", Content.text "3 класса"] ∧
      srpPatterns3.meta.correctAnswers.toFinset = ({2} : Finset Int) ∧
      evaluate srpPatterns3 [2] = true ∧
      evaluate srpPatterns3 [0] = false ∧
      evaluate srpPatterns3 [0, 2] = false := by
  refine ⟨rfl, rfl, ?_, rfl, rfl, rfl⟩
  decide

/-- C5: the record named `"lsp-ideal-1"` has exactly 4 variants, its
correct-answer set is `{0, 1, 2, 3}`, and `evaluate` on it accepts the
full selection `{0, 1, 2, 3}` but rejects the incomplete `{1, 2, 3}`. -/
theorem lspIdeal1_scenario :
    lspIdeal1.name = "lsp-ideal-1" ∧
      lspIdeal1.variants.length = 4 ∧
      lspIdeal1.meta.correctAnswers.toFinset = ({0, 1, 2, 3} : Finset Int) ∧
      evaluate lspIdeal1 [0, 1, 2, 3] = true ∧
      evaluate lspIdeal1 [1, 2, 3] = false := by
  refine ⟨rfl, rfl, ?_, rfl, rfl⟩
  decide

lemma find?_name_append_single (reg : List IQuiz) (q : IQuiz) (n : String)
    (hreg : reg.find? (fun r => r.name == n) = none) (hq : q.name = n) :
    (reg ++ [q]).find? (fun r => r.name == n) = some q := by
  rw [List.find?_append, hreg, Option.none_or]
  simp [List.find?, hq]

/-- C6: once `defineQuiz reg q₁` has succeeded producing `reg'`, a second
registration under the same name fails with `DuplicateName`, and the
registry keeps the first record under that name: `lookupQuiz` on `reg'`
still returns `q₁`, and the failed call produces no new registry state. -/
theorem define_duplicate_rejected (reg reg' : List IQuiz) (q₁ q₂ : IQuiz)
    (hname : q₂.name = q₁.name)
    (h : defineQuiz reg q₁ = Except.ok reg') :
    defineQuiz reg' q₂ = Except.error RegistryError.DuplicateName ∧
      lookupQuiz reg' q₁.name = Except.ok q₁ := by
  unfold defineQuiz at h
  by_cases hdup : (reg.find? (fun r => r.name == q₁.name)).isSome
  · rw [if_pos hdup] at h
    exact absurd h (by simp)
  · rw [if_neg hdup] at h
    by_cases hval : validRecord q₁
    · rw [if_pos hval] at h
      have hreg' : reg' = reg ++ [q₁] := by
        cases h
        rfl
      have hnone : reg.find? (fun r => r.name == q₁.name) = none := by
        cases hfind : reg.find? (fun r => r.name == q₁.name) with
        | none => rfl
        | some r => rw [hfind] at hdup; exact absurd rfl hdup
      have hfound : reg'.find? (fun r => r.name == q₁.name) = some q₁ := by
        rw [hreg']
        exact find?_name_append_single reg q₁ q₁.name hnone rfl
      constructor
      · unfold defineQuiz
        rw [hname, hfound]
        simp
      · unfold lookupQuiz
        rw [hfound]
    · rw [if_neg hval] at h
      exact absurd h (by simp)

/-- A second record carrying the already-registered name `"lsp-ideal-1"`,
used to exhibit the duplicate-name rejection. -/
def lspIdeal1Duplicate : IQuiz :=
  { name := "lsp-ideal-1"
  , question := Content.component "Question"
  , variants := [{ text := Content.text "другой вариант" }]
  , meta := { correctAnswers := [0] } }

/-- Witness for C6: registering `lspIdeal1` into the registry already
holding `srpPatterns3` succeeds, and registering a second record named
`"lsp-ideal-1"` into the result is rejected with `DuplicateName` while the
lookup still returns the original `lspIdeal1`. -/
theorem define_duplicate_rejected_witness :
    defineQuiz [srpPatterns3, lspIdeal1] lspIdeal1Duplicate =
      Except.error RegistryError.DuplicateName ∧
      lookupQuiz [srpPatterns3, lspIdeal1] lspIdeal1.name = Except.ok lspIdeal1 :=
  define_duplicate_rejected [srpPatterns3] [srpPatterns3, lspIdeal1]
    lspIdeal1 lspIdeal1Duplicate rfl rfl

/-- C7: `lookupQuiz` on a name registered by no record fails with
`NotFound` (and no other error); when it succeeds it returns a registered
record whose name matches exactly; and when some record with the name is
registered, it succeeds with such a record. -/
theorem lookup_exact (reg : List IQuiz) (n : String) :
    ((∀ q ∈ reg, q.name ≠ n) → lookupQuiz reg n = Except.error RegistryError.NotFound) ∧
      (∀ q, lookupQuiz reg n = Except.ok q → q ∈ reg ∧ q.name = n) ∧
      ((∃ q ∈ reg, q.name = n) → ∃ q, lookupQuiz reg n = Except.ok q ∧ q.name = n) := by
  refine ⟨fun habs => ?_, fun q hq => ?_, fun ⟨q, hq, hn⟩ => ?_⟩
  · unfold lookupQuiz
    have : reg.find? (fun q => q.name == n) = none := by
      rw [List.find?_eq_none]
      intro q hq
      simpa using habs q hq
    rw [this]
  · unfold lookupQuiz at hq
    cases hfind : reg.find? (fun q => q.name == n) with
    | none => rw [hfind] at hq; exact absurd hq (by simp)
    | some r =>
        rw [hfind] at hq
        have hqr : r = q := by
          cases hq
          rfl
        subst hqr
        exact ⟨List.mem_of_find?_eq_some hfind,
          by simpa using List.find?_some hfind⟩
  · have : (reg.find? (fun q => q.name == n)).isSome := by
      rw [List.find?_isSome]
      exact ⟨q, hq, by simpa using hn⟩
    cases hfind : reg.find? (fun q => q.name == n) with
    | none => rw [hfind] at this; exact absurd this (by simp)
    | some r =>
        refine ⟨r, ?_, by simpa using List.find?_some hfind⟩
        unfold lookupQuiz
        rw [hfind]

/-- Witness for C7: in the slice registry, the unregistered name
`"ocp-patterns-1"` yields `NotFound`, the record returned for
`"srp-patterns-3"` is registered under exactly that name, and some record
is found for the registered name `"lsp-ideal-1"`. -/
theorem lookup_exact_witness :
    lookupQuiz registeredQuizzes "ocp-patterns-1" =
        Except.error RegistryError.NotFound ∧
      (srpPatterns3 ∈ registeredQuizzes ∧ srpPatterns3.name = "srp-patterns-3") ∧
      (∃ q, lookupQuiz registeredQuizzes "lsp-ideal-1" = Except.ok q ∧
        q.name = "lsp-ideal-1") :=
  ⟨(lookup_exact registeredQuizzes "ocp-patterns-1").1 (by decide),
    (lookup_exact registeredQuizzes "srp-patterns-3").2.1 srpPatterns3 rfl,
    (lookup_exact registeredQuizzes "lsp-ideal-1").2.2 ⟨lspIdeal1, by decide, rfl⟩⟩

/-- C8: every registered record of the slice has a non-empty
`meta.correctAnswers` list. -/
theorem correctAnswers_nonempty :
    ∀ q ∈ registeredQuizzes, q.meta.correctAnswers ≠ [] := by
  decide

/-- Witness for C8 at a concrete record: `lspIdeal1` is registered and its
correct-answer list is non-empty. -/
theorem correctAnswers_nonempty_witness : lspIdeal1.meta.correctAnswers ≠ [] :=
  correctAnswers_nonempty lspIdeal1 (by decide)

/-- C9: the registered records carry pairwise distinct names, and the two
records of the slice are named `"srp-patterns-3"` and `"lsp-ideal-1"`. -/
theorem names_unique :
    registeredQuizzes.Pairwise (fun a b => a.name ≠ b.name) ∧
      srpPatterns3.name = "srp-patterns-3" ∧
      lspIdeal1.name = "lsp-ideal-1" := by
  refine ⟨?_, rfl, rfl⟩
  decide

/-- C10: in every registered record of the slice, `meta.correctAnswers`
is strictly increasing — hence duplicate-free: it already denotes a set. -/
theorem correctAnswers_sorted_nodup :
    ∀ q ∈ registeredQuizzes,
      q.meta.correctAnswers.Pairwise (fun a b => a < b) ∧
        q.meta.correctAnswers.Nodup := by
  decide

/-- Witness for C10 at a concrete record: `lspIdeal1`'s correct-answer
list `[0, 1, 2, 3]` is strictly increasing and duplicate-free. -/
theorem correctAnswers_sorted_nodup_witness :
    lspIdeal1.meta.correctAnswers.Pairwise (fun a b => a < b) ∧
      lspIdeal1.meta.correctAnswers.Nodup :=
  correctAnswers_sorted_nodup lspIdeal1 (by decide)
